import Mathlib

/-!
Verification of the FindFlow client (src/website/main.js).

The file shallowly embeds the interaction-flow controller, the autocomplete
suggestion lookup and the in-memory catalog filter of `main.js`.  Session
state (the globals `step`, `category`, `answers`, `isRequestInProgress`,
`currentQuestionIndex`, `totalQuestions` plus the visible DOM surface the
claims talk about) becomes an explicit `Session` record; each DOM event
handler becomes a function from `Session` to `Session` (paired with its
observable outputs: issued request bodies and notification banners).
The 45-second request timeout (`setTimeout` / `clearTimeout` in `askAgent`)
is modelled with an explicit `timeoutArmed` flag: `askAgent` arms it, the
response and transport-error callbacks clear it (`clearTimeout`), and
`timeoutFires` consumes it and runs the timeout callback body.

JavaScript regular expressions in `getAutocompleteSuggestions`
(`new RegExp('^' + query, 'i')` and `new RegExp(query, 'i')`) are modelled
by a matcher (`regexMatchesAt` / `regexSearch`) over patterns whose
characters are regex literals or the `.` wildcard; on that domain (queries
whose characters are non-metacharacters or `.`) the matcher computes
exactly what the JS regex test computes.  For queries containing other
metacharacters (quantifiers, classes, groups — e.g. `"("`, on which the
`RegExp` constructor throws) the source's behaviour is not modelled; the
suggestion-lookup theorem is therefore restricted to metacharacter-free
queries (`regexSafe`), on which the regex tests coincide with literal
case-insensitive prefix / substring matching (`isPrefixCI` / `containsCI`),
and a counterexample at the wildcard query `"k."` shows the unrestricted
claim fails.  Case-insensitivity is ASCII `Char.toLower`, which agrees
with JS `toLowerCase` on every string in the embedded tables (their only
uppercase letters are ASCII).

Product ratings, which are one-decimal JS numbers (4.6, 4.8, ...), are
represented exactly as naturals scaled by ten (46, 48, ...); the filter's
`p.rating >= rating` comparison is order-isomorphic under this scaling.
-/

namespace FindFlow

/-! ## Character and string helpers (JS `toLowerCase`, `includes`, prefix test) -/

/-- ASCII lowercase of a character list, the effect of JS `toLowerCase`
on the ASCII letters occurring in the embedded tables. -/
def lowerChars (l : List Char) : List Char :=
  l.map Char.toLower

/-- Prefix test on character lists. -/
def isPrefixList : List Char → List Char → Bool
  | [], _ => true
  | _ :: _, [] => false
  | c :: cs, d :: ds => c == d && isPrefixList cs ds

/-- Substring test on character lists (JS `String.prototype.includes`). -/
def listContainsSub (pat : List Char) : List Char → Bool
  | [] => isPrefixList pat []
  | d :: ds => isPrefixList pat (d :: ds) || listContainsSub pat ds

/-- Case-insensitive prefix test, the meaning of
`new RegExp('^' + query, 'i').test(key)` for metacharacter-free queries. -/
def isPrefixCI (q key : String) : Bool :=
  isPrefixList (lowerChars q.data) (lowerChars key.data)

/-- Case-insensitive substring test (the meaning of JS
`String.prototype.includes` on lowercased operands, and of
`new RegExp(query, 'i').test(text)` for metacharacter-free queries). -/
def containsCI (text q : String) : Bool :=
  listContainsSub (lowerChars q.data) (lowerChars text.data)

/-- The characters that are special in a JS regular expression pattern. -/
def isRegexMeta (c : Char) : Bool :=
  c == '.' || c == '*' || c == '+' || c == '?' || c == '^' || c == '$' ||
  c == '(' || c == ')' || c == '[' || c == ']' || c == '\x7b' ||
  c == '\x7d' || c == '|' || c == '\\'

/-- The query contains no JS regex metacharacter.  Stated on the lowered
characters to align with the case-insensitive matcher; since
`Char.toLower` fixes every metacharacter and maps letters to letters,
this is the same as the query itself being metacharacter-free. -/
def regexSafe (q : String) : Bool :=
  (lowerChars q.data).all (fun c => !(isRegexMeta c))

/-- Anchored match of a regex pattern against the start of a subject,
for patterns whose characters are regex literals or the `.` wildcard
(which matches any single character). -/
def regexMatchesAt : List Char → List Char → Bool
  | [], _ => true
  | _ :: _, [] => false
  | p :: ps, c :: cs => (p == '.' || p == c) && regexMatchesAt ps cs

/-- Unanchored regex search (a match may start at any position), for
patterns whose characters are regex literals or the `.` wildcard. -/
def regexSearch (pat : List Char) : List Char → Bool
  | [] => regexMatchesAt pat []
  | c :: cs => regexMatchesAt pat (c :: cs) || regexSearch pat cs

/-- The meaning of `new RegExp('^' + query, 'i').test(key)` for queries
whose characters are regex literals or the `.` wildcard. -/
def regexAnchoredTest (q key : String) : Bool :=
  regexMatchesAt (lowerChars q.data) (lowerChars key.data)

/-- The meaning of `new RegExp(query, 'i').test(text)` for queries whose
characters are regex literals or the `.` wildcard. -/
def regexSearchTest (q text : String) : Bool :=
  regexSearch (lowerChars q.data) (lowerChars text.data)

/-! ## Suggestion index (`autocompleteSuggestions`, `getAutocompleteSuggestions`) -/

/-- One autocomplete suggestion: display text, icon reference, category id. -/
structure Suggestion where
  text : String
  icon : String
  category : String
deriving DecidableEq

/-- The fixed suggestion table of `main.js` (object literal
`autocompleteSuggestions`), in source key order. -/
def autocompleteSuggestions : List (String × List Suggestion) :=
  [ ("k", [⟨"Kulaklık", "fas fa-headphones", "Headphones"⟩,
           ⟨"Klavye", "fas fa-keyboard", "Keyboard"⟩,
           ⟨"Klima", "fas fa-snowflake", "Air Conditioner"⟩]),
    ("ku", [⟨"Kulaklık", "fas fa-headphones", "Headphones"⟩]),
    ("kul", [⟨"Kulaklık", "fas fa-headphones", "Headphones"⟩]),
    ("kula", [⟨"Kulaklık", "fas fa-headphones", "Headphones"⟩]),
    ("kulak", [⟨"Kulaklık", "fas fa-headphones", "Headphones"⟩]),
    ("kulakl", [⟨"Kulaklık", "fas fa-headphones", "Headphones"⟩]),
    ("kulakli", [⟨"Kulaklık", "fas fa-headphones", "Headphones"⟩]),
    ("kulaklik", [⟨"Kulaklık", "fas fa-headphones", "Headphones"⟩]),
    ("kulaklık", [⟨"Kulaklık", "fas fa-headphones", "Headphones"⟩]),
    ("kl", [⟨"Klima", "fas fa-snowflake", "Air Conditioner"⟩,
            ⟨"Klavye", "fas fa-keyboard", "Keyboard"⟩]),
    ("kli", [⟨"Klima", "fas fa-snowflake", "Air Conditioner"⟩]),
    ("klim", [⟨"Klima", "fas fa-snowflake", "Air Conditioner"⟩]),
    ("l", [⟨"Laptop", "fas fa-laptop", "Laptop"⟩]),
    ("la", [⟨"Laptop", "fas fa-laptop", "Laptop"⟩]),
    ("lap", [⟨"Laptop", "fas fa-laptop", "Laptop"⟩]),
    ("lapt", [⟨"Laptop", "fas fa-laptop", "Laptop"⟩]),
    ("lapto", [⟨"Laptop", "fas fa-laptop", "Laptop"⟩]),
    ("laptop", [⟨"Laptop", "fas fa-laptop", "Laptop"⟩]),
    ("m", [⟨"Mouse", "fas fa-mouse", "Mouse"⟩,
           ⟨"Mikrofon", "fas fa-microphone", "Microphone"⟩,
           ⟨"Monitör", "fas fa-desktop", "Monitor"⟩]),
    ("mo", [⟨"Mouse", "fas fa-mouse", "Mouse"⟩,
            ⟨"Monitör", "fas fa-desktop", "Monitor"⟩]),
    ("mi", [⟨"Mikrofon", "fas fa-microphone", "Microphone"⟩]),
    ("mik", [⟨"Mikrofon", "fas fa-microphone", "Microphone"⟩]),
    ("mikr", [⟨"Mikrofon", "fas fa-microphone", "Microphone"⟩]),
    ("mikro", [⟨"Mikrofon", "fas fa-microphone", "Microphone"⟩]),
    ("mikrof", [⟨"Mikrofon", "fas fa-microphone", "Microphone"⟩]),
    ("mikrofo", [⟨"Mikrofon", "fas fa-microphone", "Microphone"⟩]),
    ("mikrofon", [⟨"Mikrofon", "fas fa-microphone", "Microphone"⟩]),
    ("mon", [⟨"Monitör", "fas fa-desktop", "Monitor"⟩]),
    ("moni", [⟨"Monitör", "fas fa-desktop", "Monitor"⟩]),
    ("monit", [⟨"Monitör", "fas fa-desktop", "Monitor"⟩]),
    ("monito", [⟨"Monitör", "fas fa-desktop", "Monitor"⟩]),
    ("monitor", [⟨"Monitör", "fas fa-desktop", "Monitor"⟩]),
    ("monitör", [⟨"Monitör", "fas fa-desktop", "Monitor"⟩]),
    ("mou", [⟨"Mouse", "fas fa-mouse", "Mouse"⟩]),
    ("mous", [⟨"Mouse", "fas fa-mouse", "Mouse"⟩]),
    ("mouse", [⟨"Mouse", "fas fa-mouse", "Mouse"⟩]),
    ("t", [⟨"Telefon", "fas fa-mobile-alt", "Phone"⟩,
           ⟨"Tablet", "fas fa-tablet-alt", "Tablet"⟩,
           ⟨"TV", "fas fa-tv", "TV"⟩,
           ⟨"Televizyon", "fas fa-tv", "TV"⟩]),
    ("te", [⟨"Telefon", "fas fa-mobile-alt", "Phone"⟩,
            ⟨"TV", "fas fa-tv", "TV"⟩,
            ⟨"Televizyon", "fas fa-tv", "TV"⟩]),
    ("tel", [⟨"Telefon", "fas fa-mobile-alt", "Phone"⟩,
             ⟨"TV", "fas fa-tv", "TV"⟩,
             ⟨"Televizyon", "fas fa-tv", "TV"⟩]),
    ("tele", [⟨"Telefon", "fas fa-mobile-alt", "Phone"⟩,
              ⟨"TV", "fas fa-tv", "TV"⟩,
              ⟨"Televizyon", "fas fa-tv", "TV"⟩]),
    ("telef", [⟨"Telefon", "fas fa-mobile-alt", "Phone"⟩]),
    ("telefo", [⟨"Telefon", "fas fa-mobile-alt", "Phone"⟩]),
    ("telefon", [⟨"Telefon", "fas fa-mobile-alt", "Phone"⟩]) ]

/-- The first `Object.keys(...).forEach` block of
`getAutocompleteSuggestions`: collects, for each table key matched as a
prefix of the query (key order), that key's suggestions, skipping display
texts already collected. -/
def autocompletePhaseOne (query : String) : List Suggestion :=
  autocompleteSuggestions.foldl
    (fun acc kv =>
      if regexAnchoredTest query kv.fst then
        kv.snd.foldl
          (fun acc s =>
            if acc.any (fun t => t.text == s.text) then acc else acc ++ [s])
          acc
      else acc)
    []

/-- The second `forEach` block of `getAutocompleteSuggestions`: appends the
substring matches to the phase-one accumulator, skipping collected texts. -/
def autocompletePhaseTwo (query : String) (s1 : List Suggestion) : List Suggestion :=
  autocompleteSuggestions.foldl
    (fun acc kv =>
      kv.snd.foldl
        (fun acc s =>
          if regexSearchTest query s.text && !(acc.any (fun t => t.text == s.text)) then
            acc ++ [s]
          else acc)
        acc)
    s1

/-- The suggestion lookup of `main.js` (`getAutocompleteSuggestions`):
an empty query returns the empty list (`if (!query) return suggestions`);
otherwise phase one collects the prefix-key matches, phase two appends the
substring matches, and the result is truncated to 8 entries
(`suggestions.slice(0, 8)`). -/
def getAutocompleteSuggestions (query : String) : List Suggestion :=
  if query = "" then []
  else (autocompletePhaseTwo query (autocompletePhaseOne query)).take 8

/-- First-occurrence deduplication by display text, relative to a list of
display texts already seen.  Used to state the ordering contract of the
suggestion lookup. -/
def dedupFrom (seen : List String) : List Suggestion → List Suggestion
  | [] => []
  | s :: rest =>
      if s.text ∈ seen then dedupFrom seen rest
      else s :: dedupFrom (s.text :: seen) rest

/-- Modelled from the spec's suggestion-index contract: all suggestions of
prefix-matched keys, in table order. -/
def prefixKeyMatches (q : String) : List Suggestion :=
  autocompleteSuggestions.flatMap (fun kv => if isPrefixCI q kv.fst then kv.snd else [])

/-- Modelled from the spec's suggestion-index contract: all suggestions whose
display text contains the query, in table order. -/
def textMatches (q : String) : List Suggestion :=
  (autocompleteSuggestions.flatMap (fun kv => kv.snd)).filter (fun s => containsCI s.text q)

/-- Modelled from the spec's suggestion-index contract: prefix matches first
(table order), then substring matches, deduplicated by display text
(first occurrence wins), truncated to 8. -/
def suggestionLookupSpec (q : String) : List Suggestion :=
  (dedupFrom [] (prefixKeyMatches q ++ textMatches q)).take 8

/-- All suggestions of keys matched by the source's anchored key regex,
in table order. -/
def regexKeyMatches (q : String) : List Suggestion :=
  autocompleteSuggestions.flatMap
    (fun kv => if regexAnchoredTest q kv.fst then kv.snd else [])

/-- All suggestions whose display text is matched by the source's
unanchored text regex, in table order. -/
def regexTextMatches (q : String) : List Suggestion :=
  (autocompleteSuggestions.flatMap (fun kv => kv.snd)).filter
    (fun s => regexSearchTest q s.text)

/-! ## Catalog filter (`products`, `filterProducts`) -/

/-- A catalog item.  `rating` is the JS one-decimal rating scaled by ten. -/
structure Product where
  name : String
  color : String
  size : String
  price : Nat
  rating : Nat
deriving DecidableEq

/-- The fixed in-memory product list of `main.js` (`const products = [...]`). -/
def products : List Product :=
  [ ⟨"Mouse", "siyah", "M", 399, 46⟩,
    ⟨"Laptop", "gri", "L", 15999, 48⟩,
    ⟨"Telefon", "mavi", "M", 10999, 47⟩,
    ⟨"Kulaklık", "siyah", "S", 799, 43⟩,
    ⟨"Monitör", "beyaz", "L", 2999, 45⟩,
    ⟨"Klavye", "siyah", "M", 599, 42⟩,
    ⟨"Tablet", "gri", "M", 4999, 44⟩,
    ⟨"Kamera", "siyah", "S", 3499, 41⟩,
    ⟨"Hoparlör", "kırmızı", "S", 699, 40⟩,
    ⟨"Akıllı Saat", "siyah", "S", 1999, 46⟩ ]

/-- The conjunction of the four filter predicates of `filterProducts`:
case-insensitive name substring, exact color (empty string means unset),
exact size (empty string means unset), minimum rating (`parseFloat || 0`
makes the unset rating 0, scaled here by ten). -/
def productMatches (p : Product) (input color size : String) (rating : Nat) : Bool :=
  containsCI p.name input &&
  (color == "" || p.color == color) &&
  (size == "" || p.size == size) &&
  rating ≤ p.rating

/-- The catalog filter of `main.js` (`filterProducts`): keeps exactly the
products satisfying all four predicates. -/
def filterProducts (input color size : String) (rating : Nat) : List Product :=
  products.filter (fun p => productMatches p input color size rating)

/-! ## `/ask` response payloads and their classification (`askAgent` dispatch) -/

/-- A recommendation item as consumed by `renderRecommendations`. -/
structure Recommendation where
  title : Option String := none
  name : Option String := none
  price : Option String := none
  product_url : Option String := none
  why_recommended : Option String := none
  match_score : Option Nat := none
  source_site : Option String := none
  features : List String := []
deriving DecidableEq

/-- An `/ask` response payload as inspected by the dispatch chain of
`askAgent`.  Absent or `null` JSON fields are `none`; `error` is the JS
truthiness of the `error` field. -/
structure AskResponse where
  question : Option String := none
  options : Option (List String) := none
  type : Option String := none
  recommendations : Option (List Recommendation) := none
  categories : Option (List String) := none
  error : Bool := false
  fallback_recommendations : Option (List Recommendation) := none
  message : Option String := none
  tooltip : Option String := none
  emoji : Option String := none
deriving DecidableEq

/-- JS truthiness of `data.question` (a present, non-empty string). -/
def truthyQuestion (d : AskResponse) : Bool :=
  match d.question with
  | some q => q != ""
  | none => false

/-- Condition of dispatch branch 1: `data.question && data.options`
(a present array is truthy even when empty). -/
def cond1 (d : AskResponse) : Bool := truthyQuestion d && d.options.isSome

/-- Condition of dispatch branch 2:
`data.type === 'modern_recommendation' && data.recommendations`. -/
def cond2 (d : AskResponse) : Bool :=
  (d.type == some "modern_recommendation") && d.recommendations.isSome

/-- Condition of dispatch branch 3:
`data.type === 'fallback_recommendation' && data.recommendations`. -/
def cond3 (d : AskResponse) : Bool :=
  (d.type == some "fallback_recommendation") && d.recommendations.isSome

/-- Condition of dispatch branch 4: `data.recommendations`. -/
def cond4 (d : AskResponse) : Bool := d.recommendations.isSome

/-- Condition of dispatch branch 5: `data.categories`. -/
def cond5 (d : AskResponse) : Bool := d.categories.isSome

/-- Condition of dispatch branch 6: `data.error`. -/
def cond6 (d : AskResponse) : Bool := d.error

/-- Condition of dispatch branch 7:
`data.type === 'error' && data.fallback_recommendations`. -/
def cond7 (d : AskResponse) : Bool :=
  (d.type == some "error") && d.fallback_recommendations.isSome

/-- The eight dispatch branches of the `/ask` response handler. -/
inductive Branch where
  | question
  | modernRec
  | fallbackRec
  | legacyRec
  | categories
  | errorFlag
  | errorWithFallback
  | unexpected
deriving DecidableEq

/-- The response-shape dispatch of `askAgent` (`main.js` lines 1006-1088):
the if/else-if chain in source order, first match wins. -/
def classify (d : AskResponse) : Branch :=
  if cond1 d then .question
  else if cond2 d then .modernRec
  else if cond3 d then .fallbackRec
  else if cond4 d then .legacyRec
  else if cond5 d then .categories
  else if cond6 d then .errorFlag
  else if cond7 d then .errorWithFallback
  else .unexpected

/-! ## Session state and controller operations -/

/-- What the recommendations panel currently shows. -/
inductive RecView where
  | empty
  | noProducts
  | rendered (items : List Recommendation)
deriving DecidableEq

/-- The argument actually passed to `renderRecommendations` at run time:
`null`, `undefined`, a non-array value, or an array of items. -/
inductive RecsArg where
  | jsNull
  | jsUndefined
  | notArray
  | arr (items : List Recommendation)
deriving DecidableEq

/-- Transient notification banners raised by the dispatch branches
(`showInfoMessage` calls): the modern-path live-data info banner, the
fallback-path warning banner, the error-with-fallback backup-info banner,
and the delayed extra message of the fallback path. -/
inductive Banner where
  | liveData
  | fallbackWarning
  | backupInfo
  | delayed (m : String)
deriving DecidableEq

/-- The session state of the controller: the JS globals plus the displayed
surface the claims mention. -/
structure Session where
  step : Nat
  category : Option String
  answers : List String
  isRequestInProgress : Bool
  currentQuestionIndex : Nat
  totalQuestions : Nat
  timeoutArmed : Bool
  question : String
  options : List String
  optionsDisabled : Bool
  selectedOption : Option String
  recView : RecView
  errorText : String
  errorScreenVisible : Bool
  aiScreenVisible : Bool
  loadingVisible : Bool
  landingVisible : Bool
  interactionVisible : Bool
  chatboxInput : String
  displayedCategories : List String
deriving DecidableEq

/-- The state at page load: no active flow, landing visible. -/
def initialSession : Session :=
  { step := 0
    category := none
    answers := []
    isRequestInProgress := false
    currentQuestionIndex := 0
    totalQuestions := 7
    timeoutArmed := false
    question := ""
    options := []
    optionsDisabled := false
    selectedOption := none
    recView := .empty
    errorText := ""
    errorScreenVisible := false
    aiScreenVisible := false
    loadingVisible := false
    landingVisible := true
    interactionVisible := false
    chatboxInput := ""
    displayedCategories := [] }

/-- The body of a `POST /ask` request
(`{ step, category, answers, language }`). -/
structure AskRequest where
  step : Nat
  category : Option String
  answers : List String
  language : String
deriving DecidableEq

/-- The request body `askAgent` builds from the current globals. -/
def askRequestBody (s : Session) (lang : String) : AskRequest :=
  ⟨s.step, s.category, s.answers, lang⟩

/-- The fixed request timeout of `askAgent`, in milliseconds
(`setTimeout(..., 45000)`). -/
def askTimeoutMs : Nat := 45000

/-- `renderRecommendations` (`main.js` lines 768-848): always hides the AI
overlay and the loading element first; a `null`, `undefined`, non-array or
empty-array argument replaces the panel with the "no products found"
message and returns; otherwise the items are rendered and the inline error
is cleared. -/
def renderRecommendationsFn (s : Session) (arg : RecsArg) : Session :=
  let s1 := { s with aiScreenVisible := false, loadingVisible := false }
  match arg with
  | .arr items =>
      if items.isEmpty then { s1 with recView := .noProducts }
      else { s1 with recView := .rendered items, errorText := "" }
  | _ => { s1 with recView := .noProducts }

/-- `renderQuestion`: syncs the progress counter to `step`, installs the
question text and fresh (enabled) option buttons, hides loading, shows the
interaction screen. -/
def renderQuestionFn (s : Session) (q : String) (opts : List String) : Session :=
  { s with currentQuestionIndex := s.step
           question := q
           options := opts
           optionsDisabled := false
           loadingVisible := false
           interactionVisible := true }

/-- The localized fallback-path banner text of the
`fallback_recommendation` branch. -/
def fallbackMessageFor (lang : String) : String :=
  if lang = "tr" then
    "⚠️ Online arama servisi şu anda kullanılamıyor. Size önceden hazırlanmış kaliteli ürün önerilerimizi sunuyoruz."
  else
    "⚠️ Online search service is currently unavailable. We are showing you our pre-prepared quality product recommendations."

/-- The `.then` callback of `askAgent`'s fetch (`main.js` lines 989-1088):
cancels the timeout (`clearTimeout`), clears the in-flight guard, then runs
the first matching dispatch branch.  Returns the new session state and the
notification banners raised. -/
def responseArrives (lang : String) (s : Session) (d : AskResponse) :
    Session × List Banner :=
  let s0 := { s with timeoutArmed := false, isRequestInProgress := false }
  match classify d with
  | .question =>
      (renderQuestionFn { s0 with aiScreenVisible := false }
        (d.question.getD "") (d.options.getD []), [])
  | .modernRec =>
      (renderRecommendationsFn { s0 with aiScreenVisible := false }
        (.arr (d.recommendations.getD [])), [.liveData])
  | .fallbackRec =>
      (renderRecommendationsFn { s0 with aiScreenVisible := false }
        (.arr (d.recommendations.getD [])),
       .fallbackWarning ::
         (match d.message with
          | some m => if m != fallbackMessageFor lang then [.delayed m] else []
          | none => []))
  | .legacyRec =>
      (renderRecommendationsFn s0 (.arr (d.recommendations.getD [])), [])
  | .categories =>
      ({ s0 with displayedCategories := d.categories.getD [] }, [])
  | .errorFlag =>
      ({ s0 with aiScreenVisible := false, loadingVisible := false,
                 errorScreenVisible := true }, [])
  | .errorWithFallback =>
      (renderRecommendationsFn { s0 with aiScreenVisible := false }
        (.arr (d.fallback_recommendations.getD [])), [.backupInfo])
  | .unexpected =>
      ({ s0 with aiScreenVisible := false, loadingVisible := false,
                 errorScreenVisible := true }, [])

/-- The `.catch` callback of `askAgent`'s fetch: cancels the timeout,
clears the guard, hides overlays, shows the error screen. -/
def transportError (s : Session) : Session :=
  { s with timeoutArmed := false
           isRequestInProgress := false
           aiScreenVisible := false
           loadingVisible := false
           errorScreenVisible := true }

/-- The timeout callback of `askAgent` (`main.js` lines 962-970): when the
timer is still armed it fires once (consuming the timer) and, only if the
in-flight guard is set, clears the guard, hides the AI overlay and the
loading element and shows the error screen. -/
def timeoutFires (s : Session) : Session :=
  if s.timeoutArmed then
    let s1 := { s with timeoutArmed := false }
    if s1.isRequestInProgress then
      { s1 with isRequestInProgress := false
                aiScreenVisible := false
                loadingVisible := false
                errorScreenVisible := true }
    else s1
  else s

/-- `askAgent` up to the point the request leaves (`main.js` lines
938-981): clears the inline error, shows loading, pre-emptively shows the
AI overlay when `step > specs.length`, arms the 45-second timeout, and
issues the request built from the current globals.  Note that it never
sets the in-flight guard. -/
def askAgent (s : Session) (specsLen : Nat) (lang : String) :
    Session × AskRequest :=
  let s1 := { s with errorText := ""
                     loadingVisible := true
                     aiScreenVisible := if specsLen < s.step then true else s.aiScreenVisible
                     timeoutArmed := true }
  (s1, askRequestBody s lang)

/-- `startInteraction` (direct category selection): sets the category,
`step = 1`, clears answers, derives the total question count from the
category specs (fallback 5), and switches to the interaction screen
(`askAgent` is then invoked on the result). -/
def startInteraction (s : Session) (cat : String) (specsLen : Option Nat) : Session :=
  { s with category := some cat
           step := 1
           answers := []
           currentQuestionIndex := 1
           totalQuestions := specsLen.getD 5
           landingVisible := false
           interactionVisible := true }

/-- The success branch of `handleChatboxEntry`'s `/detect_category`
response (`main.js` lines 96-108): hides the AI overlay, stores the
detected category, sets `step = 1`, clears answers and switches to the
interaction screen (`askAgent` is then invoked on the result). -/
def detectCategorySuccess (s : Session) (cat : String) : Session :=
  { s with aiScreenVisible := false
           category := some cat
           step := 1
           answers := []
           landingVisible := false
           interactionVisible := true }

/-- `resetToLanding` (`main.js` lines 862-888): hides the interaction
screen and all overlays, shows the landing, clears the displayed
question/options/recommendations/error, resets `step`, `category`,
`answers`, the progress counter and the free-text input. -/
def resetToLanding (s : Session) : Session :=
  { s with interactionVisible := false
           landingVisible := true
           aiScreenVisible := false
           errorScreenVisible := false
           recView := .empty
           question := ""
           options := []
           errorText := ""
           step := 0
           category := none
           answers := []
           currentQuestionIndex := 0
           chatboxInput := "" }

/-- The primitive mutations performed by `handleOption`, in source
statement order; `scheduleAsk` stands for the `setTimeout(askAgent, 300)`
call that issues the next request. -/
inductive Mut where
  | setGuard (b : Bool)
  | disableOptions
  | markSelected (opt : String)
  | pushAnswer (opt : String)
  | incStep
  | syncQuestionIndex
  | clearError
  | scheduleAsk
deriving DecidableEq

/-- Effect of one primitive mutation on the session state.
`scheduleAsk` changes no state by itself. -/
def applyMut (s : Session) : Mut → Session
  | .setGuard b => { s with isRequestInProgress := b }
  | .disableOptions => { s with optionsDisabled := true }
  | .markSelected o => { s with selectedOption := some o }
  | .pushAnswer o => { s with answers := s.answers ++ [o] }
  | .incStep => { s with step := s.step + 1 }
  | .syncQuestionIndex => { s with currentQuestionIndex := s.step }
  | .clearError => { s with errorText := "" }
  | .scheduleAsk => s

/-- The mutation trace of `handleOption` (`main.js` lines 892-936): empty
when the in-flight guard is set (early return, only a log), otherwise the
source's statement sequence: set the guard, disable the option buttons,
mark the chosen one, push the answer, increment `step`, sync the progress
counter, clear the inline error, schedule `askAgent`. -/
def handleOptionTrace (s : Session) (opt : String) : List Mut :=
  if s.isRequestInProgress then []
  else
    [.setGuard true, .disableOptions, .markSelected opt, .pushAnswer opt,
     .incStep, .syncQuestionIndex, .clearError, .scheduleAsk]

/-- `handleOption`: the session state after running its mutation trace. -/
def handleOption (s : Session) (opt : String) : Session :=
  (handleOptionTrace s opt).foldl applyMut s

/-- Position of the first occurrence of a mutation in a trace. -/
def mutIndex : List Mut → Mut → Nat
  | [], _ => 0
  | x :: xs, m => if x = m then 0 else mutIndex xs m + 1

/-- The session-state invariant of the spec: whenever a flow is active
(`step > 0`), the category is non-null and `answers.length = step - 1`. -/
def sessionInv (s : Session) : Prop :=
  0 < s.step → s.category ≠ none ∧ s.answers.length = s.step - 1

instance (s : Session) : Decidable (sessionInv s) := by
  unfold sessionInv
  infer_instance

/-- A concrete next-question `/ask` payload, used as explicit input in
counterexamples. -/
def questionPayload : AskResponse :=
  { question := some "Hangi tip?"
    options := some ["64 GB", "128 GB"] }

/-- A concrete mid-flow session with an `/ask` request pending (the state
produced by answering a question: guard set by `handleOption`, timeout
armed by `askAgent`). -/
def pendingReqSession : Session :=
  { initialSession with
      step := 2
      category := some "Headphones"
      answers := ["64 GB"]
      isRequestInProgress := true
      timeoutArmed := true
      loadingVisible := true
      landingVisible := false
      interactionVisible := true }

/-- A concrete `/ask` payload satisfying several dispatch shapes at once
(branches 1, 2 and 4), used to exercise the dispatch precedence. -/
def overlapPayload : AskResponse :=
  { question := some "Hangi marka?"
    options := some ["Sony", "JBL"]
    type := some "modern_recommendation"
    recommendations := some [{ title := some "Sony WH-1000XM5" }] }

/-! ## Helper lemmas about first-occurrence deduplication -/

theorem dedupFrom_congr (l : List Suggestion) :
    ∀ (s1 s2 : List String), (∀ x, x ∈ s1 ↔ x ∈ s2) →
      dedupFrom s1 l = dedupFrom s2 l := by
  induction l with
  | nil => intro s1 s2 _; rfl
  | cons s rest ih =>
    intro s1 s2 h
    by_cases hm : s.text ∈ s1
    · rw [dedupFrom, dedupFrom, if_pos hm, if_pos ((h s.text).mp hm)]
      exact ih s1 s2 h
    · rw [dedupFrom, dedupFrom, if_neg hm, if_neg (fun hx => hm ((h s.text).mpr hx))]
      refine congrArg (s :: ·) (ih _ _ ?_)
      intro x
      simp [List.mem_cons, h x]

theorem dedupFrom_append (a : List Suggestion) :
    ∀ (b : List Suggestion) (seen : List String),
      dedupFrom seen (a ++ b) =
        dedupFrom seen a ++
          dedupFrom ((dedupFrom seen a).map (fun s => s.text) ++ seen) b := by
  induction a with
  | nil => intro b seen; simp [dedupFrom]
  | cons s rest ih =>
    intro b seen
    by_cases hm : s.text ∈ seen
    · simp only [List.cons_append, dedupFrom, if_pos hm]
      exact ih b seen
    · simp only [List.cons_append, dedupFrom, if_neg hm, List.map_cons, List.append_eq]
      rw [ih b (s.text :: seen)]
      refine congrArg (s :: ·) (congrArg _ ?_)
      refine dedupFrom_congr b _ _ ?_
      intro x
      simp only [List.mem_cons, List.mem_append]
      exact or_left_comm

theorem dedupFrom_nodup_and_fresh (l : List Suggestion) :
    ∀ seen : List String,
      ((dedupFrom seen l).map (fun s => s.text)).Nodup ∧
      ∀ x ∈ (dedupFrom seen l).map (fun s => s.text), x ∉ seen := by
  induction l with
  | nil => intro seen; simp [dedupFrom]
  | cons s rest ih =>
    intro seen
    by_cases hm : s.text ∈ seen
    · simpa [dedupFrom, hm] using ih seen
    · have h2 := ih (s.text :: seen)
      simp only [dedupFrom, if_neg hm, List.map_cons]
      constructor
      · refine List.nodup_cons.mpr ⟨?_, h2.1⟩
        intro hx
        exact (h2.2 _ hx) (List.mem_cons_self _ _)
      · intro x hx
        rcases List.mem_cons.mp hx with rfl | hx1
        · exact hm
        · intro hxs
          exact (h2.2 _ hx1) (List.mem_cons_of_mem _ hxs)

theorem seen_snoc (acc : List Suggestion) (s : Suggestion) (seen : List String)
    (h : ∀ x, x ∈ seen ↔ x ∈ acc.map (fun t => t.text)) :
    ∀ x, x ∈ s.text :: seen ↔ x ∈ (acc ++ [s]).map (fun t => t.text) := by
  intro x
  rw [List.mem_cons, h x, List.map_append, List.mem_append]
  simp [or_comm]

theorem any_text_eq_true (acc : List Suggestion) (s : Suggestion) (seen : List String)
    (h : ∀ x, x ∈ seen ↔ x ∈ acc.map (fun t => t.text)) (hm : s.text ∈ seen) :
    acc.any (fun t => t.text == s.text) = true := by
  rcases List.mem_map.mp ((h s.text).mp hm) with ⟨t, ht, hte⟩
  exact List.any_eq_true.mpr ⟨t, ht, by simp [hte]⟩

theorem any_text_eq_false (acc : List Suggestion) (s : Suggestion) (seen : List String)
    (h : ∀ x, x ∈ seen ↔ x ∈ acc.map (fun t => t.text)) (hm : s.text ∉ seen) :
    acc.any (fun t => t.text == s.text) = false := by
  rw [List.any_eq_false]
  intro t ht hbe
  exact hm ((h s.text).mpr (List.mem_map.mpr ⟨t, ht, by simpa using hbe⟩))

theorem foldl_push_eq (ss : List Suggestion) :
    ∀ (acc : List Suggestion) (seen : List String),
      (∀ x, x ∈ seen ↔ x ∈ acc.map (fun t => t.text)) →
      ss.foldl
        (fun acc s =>
          if acc.any (fun t => t.text == s.text) then acc else acc ++ [s]) acc
        = acc ++ dedupFrom seen ss := by
  induction ss with
  | nil => intro acc seen _; simp [dedupFrom]
  | cons s rest ih =>
    intro acc seen h
    simp only [List.foldl_cons]
    by_cases hm : s.text ∈ seen
    · have hstep :
          (if acc.any (fun t => t.text == s.text) then acc else acc ++ [s]) = acc := by
        simp [any_text_eq_true acc s seen h hm]
      rw [hstep, ih acc seen h, dedupFrom, if_pos hm]
    · have hstep :
          (if acc.any (fun t => t.text == s.text) then acc else acc ++ [s]) = acc ++ [s] := by
        simp [any_text_eq_false acc s seen h hm]
      rw [hstep, dedupFrom, if_neg hm]
      rw [ih (acc ++ [s]) (s.text :: seen) (seen_snoc acc s seen h)]
      simp

theorem foldl_pushFilter_eq (p : Suggestion → Bool) (ss : List Suggestion) :
    ∀ (acc : List Suggestion) (seen : List String),
      (∀ x, x ∈ seen ↔ x ∈ acc.map (fun t => t.text)) →
      ss.foldl
        (fun acc s =>
          if p s && !(acc.any (fun t => t.text == s.text)) then acc ++ [s] else acc)
        acc
        = acc ++ dedupFrom seen (ss.filter p) := by
  induction ss with
  | nil => intro acc seen _; simp [dedupFrom]
  | cons s rest ih =>
    intro acc seen h
    simp only [List.foldl_cons]
    by_cases hp : p s = true
    · by_cases hm : s.text ∈ seen
      · have hstep :
            (if p s && !(acc.any (fun t => t.text == s.text)) then acc ++ [s] else acc)
              = acc := by
          simp [hp, any_text_eq_true acc s seen h hm]
        rw [hstep, ih acc seen h, List.filter_cons_of_pos hp, dedupFrom, if_pos hm]
      · have hstep :
            (if p s && !(acc.any (fun t => t.text == s.text)) then acc ++ [s] else acc)
              = acc ++ [s] := by
          simp [hp, any_text_eq_false acc s seen h hm]
        rw [hstep, List.filter_cons_of_pos hp, dedupFrom, if_neg hm]
        rw [ih (acc ++ [s]) (s.text :: seen) (seen_snoc acc s seen h)]
        simp
    · have hp2 : p s = false := by simpa using hp
      have hstep :
          (if p s && !(acc.any (fun t => t.text == s.text)) then acc ++ [s] else acc)
            = acc := by
        simp [hp2]
      rw [hstep, List.filter_cons_of_neg (by simp [hp2])]
      exact ih acc seen h

theorem foldl_table_push_eq (pr : String → Bool) (table : List (String × List Suggestion)) :
    ∀ (acc : List Suggestion) (seen : List String),
      (∀ x, x ∈ seen ↔ x ∈ acc.map (fun s => s.text)) →
      table.foldl
        (fun acc kv =>
          if pr kv.fst then
            kv.snd.foldl
              (fun acc s =>
                if acc.any (fun t => t.text == s.text) then acc else acc ++ [s]) acc
          else acc)
        acc
        = acc ++ dedupFrom seen (table.flatMap (fun kv => if pr kv.fst then kv.snd else [])) := by
  induction table with
  | nil => intro acc seen _; simp [dedupFrom]
  | cons kv rest ih =>
    intro acc seen h
    simp only [List.foldl_cons, List.flatMap_cons]
    by_cases hpr : pr kv.fst = true
    · rw [if_pos hpr, if_pos hpr]
      rw [foldl_push_eq kv.snd acc seen h]
      rw [ih (acc ++ dedupFrom seen kv.snd)
            ((dedupFrom seen kv.snd).map (fun s => s.text) ++ seen) ?_]
      · rw [dedupFrom_append kv.snd]
        simp [List.append_assoc]
      · intro x
        simp only [List.mem_append, List.map_append, List.mem_map]
        rw [show (x ∈ seen) = (x ∈ acc.map (fun s => s.text)) from propext (h x)]
        simp only [List.mem_map]
        exact or_comm
    · rw [if_neg hpr, if_neg hpr]
      simpa using ih acc seen h

theorem foldl_table_pushFilter_eq (p : Suggestion → Bool)
    (table : List (String × List Suggestion)) :
    ∀ (acc : List Suggestion) (seen : List String),
      (∀ x, x ∈ seen ↔ x ∈ acc.map (fun s => s.text)) →
      table.foldl
        (fun acc kv =>
          kv.snd.foldl
            (fun acc s =>
              if p s && !(acc.any (fun t => t.text == s.text)) then acc ++ [s] else acc)
            acc)
        acc
        = acc ++ dedupFrom seen ((table.flatMap (fun kv => kv.snd)).filter p) := by
  induction table with
  | nil => intro acc seen _; simp [dedupFrom]
  | cons kv rest ih =>
    intro acc seen h
    simp only [List.foldl_cons, List.flatMap_cons, List.filter_append]
    rw [foldl_pushFilter_eq p kv.snd acc seen h]
    rw [ih (acc ++ dedupFrom seen (kv.snd.filter p))
          ((dedupFrom seen (kv.snd.filter p)).map (fun s => s.text) ++ seen) ?_]
    · rw [dedupFrom_append (kv.snd.filter p)]
      simp [List.append_assoc]
    · intro x
      simp only [List.mem_append, List.map_append, List.mem_map]
      rw [show (x ∈ seen) = (x ∈ acc.map (fun s => s.text)) from propext (h x)]
      simp only [List.mem_map]
      exact or_comm

theorem autocompletePhaseOne_eq (q : String) :
    autocompletePhaseOne q = dedupFrom [] (regexKeyMatches q) := by
  unfold autocompletePhaseOne regexKeyMatches
  rw [foldl_table_push_eq (regexAnchoredTest q) autocompleteSuggestions [] [] (by simp)]
  rw [List.nil_append]

theorem autocompletePhaseTwo_eq (q : String) (s1 : List Suggestion) :
    autocompletePhaseTwo q s1 =
      s1 ++ dedupFrom (s1.map (fun s => s.text)) (regexTextMatches q) := by
  unfold autocompletePhaseTwo regexTextMatches
  rw [foldl_table_pushFilter_eq (fun s => regexSearchTest q s.text) autocompleteSuggestions
        s1 (s1.map (fun s => s.text)) (fun x => Iff.rfl)]

theorem regexSafe_no_dot (q : String) (h : regexSafe q = true) :
    ∀ c ∈ lowerChars q.data, c ≠ '.' := by
  intro c hc heq
  have hall := List.all_eq_true.mp h c hc
  subst heq
  simp [isRegexMeta] at hall

theorem regexMatchesAt_no_dot (pat : List Char) (h : ∀ c ∈ pat, c ≠ '.') :
    ∀ subj, regexMatchesAt pat subj = isPrefixList pat subj := by
  induction pat with
  | nil => intro subj; cases subj <;> rfl
  | cons p ps ih =>
    intro subj
    cases subj with
    | nil => rfl
    | cons c cs =>
      have hp : (p == '.') = false := by
        simpa using h p (List.mem_cons_self p ps)
      simp only [regexMatchesAt, isPrefixList, hp, Bool.false_or]
      rw [ih (fun x hx => h x (List.mem_cons_of_mem p hx)) cs]

theorem regexSearch_no_dot (pat : List Char) (h : ∀ c ∈ pat, c ≠ '.') :
    ∀ subj, regexSearch pat subj = listContainsSub pat subj := by
  intro subj
  induction subj with
  | nil => simp only [regexSearch, listContainsSub, regexMatchesAt_no_dot pat h]
  | cons c cs ih =>
    simp only [regexSearch, listContainsSub, regexMatchesAt_no_dot pat h, ih]

theorem regexAnchoredTest_eq (q key : String) (h : regexSafe q = true) :
    regexAnchoredTest q key = isPrefixCI q key := by
  unfold regexAnchoredTest isPrefixCI
  rw [regexMatchesAt_no_dot _ (regexSafe_no_dot q h)]

theorem regexSearchTest_eq (q text : String) (h : regexSafe q = true) :
    regexSearchTest q text = containsCI text q := by
  unfold regexSearchTest containsCI
  rw [regexSearch_no_dot _ (regexSafe_no_dot q h)]

theorem regexKeyMatches_eq (q : String) (h : regexSafe q = true) :
    regexKeyMatches q = prefixKeyMatches q := by
  unfold regexKeyMatches prefixKeyMatches
  congr 1
  funext kv
  rw [regexAnchoredTest_eq q kv.fst h]

theorem regexTextMatches_eq (q : String) (h : regexSafe q = true) :
    regexTextMatches q = textMatches q := by
  unfold regexTextMatches textMatches
  congr 1
  funext s
  rw [regexSearchTest_eq q s.text h]

theorem getAutocomplete_eq_spec (q : String) (hq : q ≠ "")
    (hsafe : regexSafe q = true) :
    getAutocompleteSuggestions q = suggestionLookupSpec q := by
  unfold getAutocompleteSuggestions suggestionLookupSpec
  rw [if_neg hq, autocompletePhaseTwo_eq, autocompletePhaseOne_eq,
      regexKeyMatches_eq q hsafe, regexTextMatches_eq q hsafe, dedupFrom_append]
  simp

/-! ## Claim C8 -/

set_option maxRecDepth 8000 in
/-- C8 counterexample: the claim quantifies over every lowercase, trimmed,
non-empty query, but the source feeds the raw query to `new RegExp`, so a
query containing the `.` wildcard is regex-matched, not literally matched:
for the query "k." the lookup returns four suggestions (the wildcard
matches the two-character keys "ku", "kl", ... and the text "Mikrofon"),
none of which is a literal prefix-key or substring match, so the
claim's characterization — which yields the empty list — fails at "k.". -/
theorem autocomplete_wildcard_query_diverges :
    getAutocompleteSuggestions "k." =
      [⟨"Kulaklık", "fas fa-headphones", "Headphones"⟩,
       ⟨"Klima", "fas fa-snowflake", "Air Conditioner"⟩,
       ⟨"Klavye", "fas fa-keyboard", "Keyboard"⟩,
       ⟨"Mikrofon", "fas fa-microphone", "Microphone"⟩] ∧
    suggestionLookupSpec "k." = [] ∧
    getAutocompleteSuggestions "k." ≠ suggestionLookupSpec "k." := by
  refine ⟨by decide, by decide, by decide⟩

set_option maxRecDepth 4000 in
/-- C8 (amended): for every non-empty query free of regex metacharacters
(on which the source's regex tests are literal matching), the suggestion
lookup agrees with the spec-side characterization (all prefix-key matches
first in table order, then substring matches, skipping display texts
already collected, truncated to 8) and returns at most 8 suggestions with
pairwise distinct display texts; and the lookup for "ku" is exactly the
headphone suggestion, with no duplicate. -/
theorem getAutocompleteSuggestions_contract :
    (∀ q : String, q ≠ "" → regexSafe q = true →
      getAutocompleteSuggestions q = suggestionLookupSpec q ∧
      (getAutocompleteSuggestions q).length ≤ 8 ∧
      ((getAutocompleteSuggestions q).map (fun s => s.text)).Nodup) ∧
    getAutocompleteSuggestions "ku" =
      [⟨"Kulaklık", "fas fa-headphones", "Headphones"⟩] := by
  constructor
  · intro q hq hsafe
    have he := getAutocomplete_eq_spec q hq hsafe
    refine ⟨he, ?_, ?_⟩
    · rw [he]
      unfold suggestionLookupSpec
      rw [List.length_take]
      exact min_le_left _ _
    · rw [he]
      unfold suggestionLookupSpec
      rw [List.map_take]
      exact ((dedupFrom_nodup_and_fresh _ []).1).sublist (List.take_sublist _ _)
  · decide

/-- Witness for C8 (amended), instantiating the contract at the concrete
query "ku". -/
theorem getAutocompleteSuggestions_contract_witness :
    getAutocompleteSuggestions "ku" = suggestionLookupSpec "ku" ∧
    (getAutocompleteSuggestions "ku").length ≤ 8 ∧
    ((getAutocompleteSuggestions "ku").map (fun s => s.text)).Nodup :=
  getAutocompleteSuggestions_contract.1 "ku" (by decide) (by decide)

/-! ## Claim C9 -/

/-- C9: the catalog filter returns exactly the sublist of `products`
satisfying all four predicates (membership characterization plus sublist,
so the input list is untouched); with no predicate set it returns the full
list unchanged, and with all predicates strictly narrower than every item
it returns the empty list. -/
theorem filterProducts_contract :
    (∀ (input color size : String) (rating : Nat) (x : Product),
        x ∈ filterProducts input color size rating ↔
          x ∈ products ∧ productMatches x input color size rating = true) ∧
    (∀ (input color size : String) (rating : Nat),
        (filterProducts input color size rating).Sublist products) ∧
    filterProducts "" "" "" 0 = products ∧
    filterProducts "zzz" "mor" "XL" 50 = [] := by
  refine ⟨?_, ?_, ?_, ?_⟩
  · intro input color size rating x
    simp [filterProducts, List.mem_filter]
  · intro input color size rating
    exact List.filter_sublist _
  · decide
  · decide

/-- Witness for C9: the membership characterization and the
no-predicate case, instantiated at concrete inputs. -/
theorem filterProducts_contract_witness :
    ((⟨"Mouse", "siyah", "M", 399, 46⟩ : Product) ∈ filterProducts "mo" "" "" 40 ↔
      (⟨"Mouse", "siyah", "M", 399, 46⟩ : Product) ∈ products ∧
        productMatches ⟨"Mouse", "siyah", "M", 399, 46⟩ "mo" "" "" 40 = true) ∧
    filterProducts "" "" "" 0 = products := by
  have h := filterProducts_contract
  exact ⟨h.1 "mo" "" "" 40 ⟨"Mouse", "siyah", "M", 399, 46⟩, h.2.2.1⟩

/-! ## Helper lemmas for the `/ask` dispatch (claim C1) -/

theorem classify_question_iff (d : AskResponse) :
    classify d = .question ↔ cond1 d = true := by
  unfold classify
  split_ifs with h1 h2 h3 h4 h5 h6 h7 <;> simp_all

theorem classify_modern_iff (d : AskResponse) :
    classify d = .modernRec ↔ cond1 d = false ∧ cond2 d = true := by
  unfold classify
  split_ifs with h1 h2 h3 h4 h5 h6 h7 <;> simp_all

theorem classify_fallback_iff (d : AskResponse) :
    classify d = .fallbackRec ↔
      cond1 d = false ∧ cond2 d = false ∧ cond3 d = true := by
  unfold classify
  split_ifs with h1 h2 h3 h4 h5 h6 h7 <;> simp_all

theorem classify_legacy_iff (d : AskResponse) :
    classify d = .legacyRec ↔
      cond1 d = false ∧ cond2 d = false ∧ cond3 d = false ∧ cond4 d = true := by
  unfold classify
  split_ifs with h1 h2 h3 h4 h5 h6 h7 <;> simp_all

theorem classify_categories_iff (d : AskResponse) :
    classify d = .categories ↔
      cond1 d = false ∧ cond2 d = false ∧ cond3 d = false ∧ cond4 d = false ∧
      cond5 d = true := by
  unfold classify
  split_ifs with h1 h2 h3 h4 h5 h6 h7 <;> simp_all

theorem classify_errorFlag_iff (d : AskResponse) :
    classify d = .errorFlag ↔
      cond1 d = false ∧ cond2 d = false ∧ cond3 d = false ∧ cond4 d = false ∧
      cond5 d = false ∧ cond6 d = true := by
  unfold classify
  split_ifs with h1 h2 h3 h4 h5 h6 h7 <;> simp_all

theorem classify_errorWithFallback_iff (d : AskResponse) :
    classify d = .errorWithFallback ↔
      cond1 d = false ∧ cond2 d = false ∧ cond3 d = false ∧ cond4 d = false ∧
      cond5 d = false ∧ cond6 d = false ∧ cond7 d = true := by
  unfold classify
  split_ifs with h1 h2 h3 h4 h5 h6 h7 <;> simp_all

theorem classify_unexpected_iff (d : AskResponse) :
    classify d = .unexpected ↔
      cond1 d = false ∧ cond2 d = false ∧ cond3 d = false ∧ cond4 d = false ∧
      cond5 d = false ∧ cond6 d = false ∧ cond7 d = false := by
  unfold classify
  split_ifs with h1 h2 h3 h4 h5 h6 h7 <;> simp_all

theorem responseArrives_question (lang : String) (s : Session) (d : AskResponse)
    (h : classify d = .question) :
    (responseArrives lang s d).1.question = d.question.getD "" ∧
    (responseArrives lang s d).1.options = d.options.getD [] ∧
    (responseArrives lang s d).2 = [] := by
  simp [responseArrives, h, renderQuestionFn]

theorem responseArrives_modern (lang : String) (s : Session) (d : AskResponse)
    (h : classify d = .modernRec) :
    (d.recommendations.getD [] ≠ [] →
      (responseArrives lang s d).1.recView = .rendered (d.recommendations.getD [])) ∧
    (responseArrives lang s d).2 = [.liveData] := by
  constructor
  · intro hne
    cases hrec : d.recommendations.getD [] with
    | nil => exact absurd hrec hne
    | cons a t => simp [responseArrives, h, renderRecommendationsFn, hrec]
  · simp [responseArrives, h]

theorem responseArrives_fallback (lang : String) (s : Session) (d : AskResponse)
    (h : classify d = .fallbackRec) :
    (d.recommendations.getD [] ≠ [] →
      (responseArrives lang s d).1.recView = .rendered (d.recommendations.getD [])) ∧
    ((responseArrives lang s d).2).head? = some .fallbackWarning := by
  constructor
  · intro hne
    cases hrec : d.recommendations.getD [] with
    | nil => exact absurd hrec hne
    | cons a t => simp [responseArrives, h, renderRecommendationsFn, hrec]
  · simp [responseArrives, h]

theorem responseArrives_legacy (lang : String) (s : Session) (d : AskResponse)
    (h : classify d = .legacyRec) :
    (d.recommendations.getD [] ≠ [] →
      (responseArrives lang s d).1.recView = .rendered (d.recommendations.getD [])) ∧
    (responseArrives lang s d).2 = [] := by
  constructor
  · intro hne
    cases hrec : d.recommendations.getD [] with
    | nil => exact absurd hrec hne
    | cons a t => simp [responseArrives, h, renderRecommendationsFn, hrec]
  · simp [responseArrives, h]

theorem responseArrives_categories (lang : String) (s : Session) (d : AskResponse)
    (h : classify d = .categories) :
    (responseArrives lang s d).1.displayedCategories = d.categories.getD [] ∧
    (responseArrives lang s d).2 = [] := by
  simp [responseArrives, h]

theorem responseArrives_errorFlag (lang : String) (s : Session) (d : AskResponse)
    (h : classify d = .errorFlag) :
    (responseArrives lang s d).1.errorScreenVisible = true ∧
    (responseArrives lang s d).2 = [] := by
  simp [responseArrives, h]

theorem responseArrives_errorWithFallback (lang : String) (s : Session)
    (d : AskResponse) (h : classify d = .errorWithFallback) :
    (d.fallback_recommendations.getD [] ≠ [] →
      (responseArrives lang s d).1.recView =
        .rendered (d.fallback_recommendations.getD [])) ∧
    (responseArrives lang s d).2 = [.backupInfo] := by
  constructor
  · intro hne
    cases hrec : d.fallback_recommendations.getD [] with
    | nil => exact absurd hrec hne
    | cons a t => simp [responseArrives, h, renderRecommendationsFn, hrec]
  · simp [responseArrives, h]

theorem responseArrives_unexpected (lang : String) (s : Session) (d : AskResponse)
    (h : classify d = .unexpected) :
    (responseArrives lang s d).1.errorScreenVisible = true ∧
    (responseArrives lang s d).2 = [] := by
  simp [responseArrives, h]

theorem responseArrives_timeoutArmed (lang : String) (s : Session) (d : AskResponse) :
    ((responseArrives lang s d).1).timeoutArmed = false := by
  cases hc : classify d <;>
    simp only [responseArrives, hc, renderQuestionFn, renderRecommendationsFn] <;>
    first
      | rfl
      | (split <;> rfl)

/-! ## Claim C1 -/

/-- C1: the `/ask` response handler inspects the payload in the fixed
source order and executes exactly the first matching branch.  The eight
iff clauses characterize `classify` as first-match-wins over the eight
branch conditions; the eight implications state the observable effect of
each branch: (1) question rendered, no banner; (2) recommendations with a
live-data info banner; (3) recommendations with a fallback warning banner
first; (4) recommendations with no banner; (5) landing categories
re-rendered; (6) error screen; (7) fallback list with an info banner;
(8) error screen. -/
theorem askResponse_dispatch_priority :
    ∀ (lang : String) (s : Session) (d : AskResponse),
      (classify d = .question ↔ cond1 d = true) ∧
      (classify d = .modernRec ↔ cond1 d = false ∧ cond2 d = true) ∧
      (classify d = .fallbackRec ↔
        cond1 d = false ∧ cond2 d = false ∧ cond3 d = true) ∧
      (classify d = .legacyRec ↔
        cond1 d = false ∧ cond2 d = false ∧ cond3 d = false ∧ cond4 d = true) ∧
      (classify d = .categories ↔
        cond1 d = false ∧ cond2 d = false ∧ cond3 d = false ∧ cond4 d = false ∧
        cond5 d = true) ∧
      (classify d = .errorFlag ↔
        cond1 d = false ∧ cond2 d = false ∧ cond3 d = false ∧ cond4 d = false ∧
        cond5 d = false ∧ cond6 d = true) ∧
      (classify d = .errorWithFallback ↔
        cond1 d = false ∧ cond2 d = false ∧ cond3 d = false ∧ cond4 d = false ∧
        cond5 d = false ∧ cond6 d = false ∧ cond7 d = true) ∧
      (classify d = .unexpected ↔
        cond1 d = false ∧ cond2 d = false ∧ cond3 d = false ∧ cond4 d = false ∧
        cond5 d = false ∧ cond6 d = false ∧ cond7 d = false) ∧
      (classify d = .question →
        (responseArrives lang s d).1.question = d.question.getD "" ∧
        (responseArrives lang s d).1.options = d.options.getD [] ∧
        (responseArrives lang s d).2 = []) ∧
      (classify d = .modernRec →
        (d.recommendations.getD [] ≠ [] →
          (responseArrives lang s d).1.recView =
            .rendered (d.recommendations.getD [])) ∧
        (responseArrives lang s d).2 = [.liveData]) ∧
      (classify d = .fallbackRec →
        (d.recommendations.getD [] ≠ [] →
          (responseArrives lang s d).1.recView =
            .rendered (d.recommendations.getD [])) ∧
        ((responseArrives lang s d).2).head? = some .fallbackWarning) ∧
      (classify d = .legacyRec →
        (d.recommendations.getD [] ≠ [] →
          (responseArrives lang s d).1.recView =
            .rendered (d.recommendations.getD [])) ∧
        (responseArrives lang s d).2 = []) ∧
      (classify d = .categories →
        (responseArrives lang s d).1.displayedCategories = d.categories.getD [] ∧
        (responseArrives lang s d).2 = []) ∧
      (classify d = .errorFlag →
        (responseArrives lang s d).1.errorScreenVisible = true ∧
        (responseArrives lang s d).2 = []) ∧
      (classify d = .errorWithFallback →
        (d.fallback_recommendations.getD [] ≠ [] →
          (responseArrives lang s d).1.recView =
            .rendered (d.fallback_recommendations.getD [])) ∧
        (responseArrives lang s d).2 = [.backupInfo]) ∧
      (classify d = .unexpected →
        (responseArrives lang s d).1.errorScreenVisible = true ∧
        (responseArrives lang s d).2 = []) := by
  intro lang s d
  exact ⟨classify_question_iff d, classify_modern_iff d, classify_fallback_iff d,
    classify_legacy_iff d, classify_categories_iff d, classify_errorFlag_iff d,
    classify_errorWithFallback_iff d, classify_unexpected_iff d,
    fun h => responseArrives_question lang s d h,
    fun h => responseArrives_modern lang s d h,
    fun h => responseArrives_fallback lang s d h,
    fun h => responseArrives_legacy lang s d h,
    fun h => responseArrives_categories lang s d h,
    fun h => responseArrives_errorFlag lang s d h,
    fun h => responseArrives_errorWithFallback lang s d h,
    fun h => responseArrives_unexpected lang s d h⟩

/-- Witness for C1: a payload matching shapes 1, 2 and 4 at once is
handled by the earliest branch (the question branch) only. -/
theorem askResponse_dispatch_priority_witness :
    classify overlapPayload = Branch.question ∧
    (responseArrives "tr" initialSession overlapPayload).2 = [] := by
  have h := askResponse_dispatch_priority "tr" initialSession overlapPayload
  obtain ⟨i1, _, _, _, _, _, _, _, e1, _⟩ := h
  have hc : classify overlapPayload = Branch.question := i1.mpr (by decide)
  exact ⟨hc, (e1 hc).2.2⟩

/-! ## Claim C2 -/

/-- C2: when the in-flight guard is set, `handleOption` is a no-op: the
state (in particular `answers` and `step`) is unchanged and its mutation
trace is empty, so no request is scheduled. -/
theorem handleOption_inflight_noop :
    ∀ (s : Session) (opt : String), s.isRequestInProgress = true →
      handleOption s opt = s ∧ handleOptionTrace s opt = [] := by
  intro s opt h
  have ht : handleOptionTrace s opt = [] := by simp [handleOptionTrace, h]
  exact ⟨by simp [handleOption, ht], ht⟩

/-- Witness for C2 at a concrete busy state. -/
theorem handleOption_inflight_noop_witness :
    handleOption { initialSession with isRequestInProgress := true } "64 GB"
      = { initialSession with isRequestInProgress := true } ∧
    handleOptionTrace { initialSession with isRequestInProgress := true } "64 GB"
      = [] :=
  handleOption_inflight_noop { initialSession with isRequestInProgress := true }
    "64 GB" rfl

/-! ## Claim C3 -/

/-- C3: with the guard clear, `handleOption` appends exactly the chosen
option to `answers` and increments `step` by one; in its mutation trace
the append strictly precedes the increment, which strictly precedes the
scheduling of the next request, and the request body built from the
resulting state already carries the new answer and step. -/
theorem handleOption_appends_then_increments :
    ∀ (s : Session) (opt : String), s.isRequestInProgress = false →
      (handleOption s opt).answers = s.answers ++ [opt] ∧
      (handleOption s opt).step = s.step + 1 ∧
      mutIndex (handleOptionTrace s opt) (.pushAnswer opt) <
        mutIndex (handleOptionTrace s opt) .incStep ∧
      mutIndex (handleOptionTrace s opt) .incStep <
        mutIndex (handleOptionTrace s opt) .scheduleAsk ∧
      (∀ lang, askRequestBody (handleOption s opt) lang
          = ⟨s.step + 1, s.category, s.answers ++ [opt], lang⟩) := by
  intro s opt h
  refine ⟨?_, ?_, ?_, ?_, ?_⟩ <;>
    simp [handleOption, handleOptionTrace, h, applyMut, mutIndex, askRequestBody]

/-- Witness for C3 at the initial state. -/
theorem handleOption_appends_then_increments_witness :
    (handleOption initialSession "64 GB").answers
      = initialSession.answers ++ ["64 GB"] ∧
    askRequestBody (handleOption initialSession "64 GB") "tr"
      = ⟨initialSession.step + 1, initialSession.category,
         initialSession.answers ++ ["64 GB"], "tr"⟩ := by
  have h := handleOption_appends_then_increments initialSession "64 GB" rfl
  exact ⟨h.1, h.2.2.2.2 "tr"⟩

/-! ## Claim C4 -/

/-- C4 (amended): for a request whose timeout is armed while the in-flight
guard is set (every request triggered by answering a question), the
timeout firing transitions to the error state exactly once — the guard is
false afterward, the overlays are hidden, and a second firing changes
nothing; any response or transport error cancels the timeout; the timeout
is 45000 ms. -/
theorem timeout_error_transition_guarded :
    ∀ s : Session, s.timeoutArmed = true → s.isRequestInProgress = true →
      (timeoutFires s).errorScreenVisible = true ∧
      (timeoutFires s).isRequestInProgress = false ∧
      (timeoutFires s).aiScreenVisible = false ∧
      (timeoutFires s).loadingVisible = false ∧
      timeoutFires (timeoutFires s) = timeoutFires s ∧
      (∀ (lang : String) (d : AskResponse),
        ((responseArrives lang s d).1).timeoutArmed = false) ∧
      (transportError s).timeoutArmed = false ∧
      askTimeoutMs = 45000 := by
  intro s h1 h2
  refine ⟨?_, ?_, ?_, ?_, ?_,
    fun lang d => responseArrives_timeoutArmed lang s d, rfl, rfl⟩ <;>
    simp [timeoutFires, h1, h2]

/-- Witness for C4 (amended) at a concrete pending-request state. -/
theorem timeout_error_transition_guarded_witness :
    (timeoutFires pendingReqSession).errorScreenVisible = true ∧
    (timeoutFires pendingReqSession).isRequestInProgress = false ∧
    askTimeoutMs = 45000 := by
  have h := timeout_error_transition_guarded pendingReqSession rfl rfl
  exact ⟨h.1, h.2.1, h.2.2.2.2.2.2.2⟩

/-- C4 counterexample: the first-question request (issued by `askAgent`
right after `startInteraction`) runs with the in-flight guard false, so
when its 45-second timeout fires the guard check in the callback fails and
no error transition happens — contradicting the claim that the timeout
behaviour covers every request of the flow. -/
theorem first_request_timeout_no_error :
    ((askAgent (startInteraction initialSession "Headphones" (some 3)) 3 "tr").1).isRequestInProgress
      = false ∧
    ((askAgent (startInteraction initialSession "Headphones" (some 3)) 3 "tr").1).timeoutArmed
      = true ∧
    (timeoutFires
      ((askAgent (startInteraction initialSession "Headphones" (some 3)) 3 "tr").1)).errorScreenVisible
      = false ∧
    (timeoutFires
      ((askAgent (startInteraction initialSession "Headphones" (some 3)) 3 "tr").1)).loadingVisible
      = true := by
  refine ⟨rfl, rfl, rfl, rfl⟩

/-! ## Claim C5 -/

/-- C5 (amended): query submission, direct category selection and reset
establish the session-state invariant from every state; answering a
question preserves it from every state with an active flow (`step > 0`).
(From `step = 0` an answer breaks it, see the counterexample.) -/
theorem sessionInv_preservation_amended :
    ∀ (s : Session) (cat : String) (specsLen : Option Nat) (opt : String),
      sessionInv (startInteraction s cat specsLen) ∧
      sessionInv (detectCategorySuccess s cat) ∧
      sessionInv (resetToLanding s) ∧
      (sessionInv s → 0 < s.step → sessionInv (handleOption s opt)) := by
  intro s cat specsLen opt
  refine ⟨?_, ?_, ?_, ?_⟩
  · intro _
    exact ⟨by simp [startInteraction], by simp [startInteraction]⟩
  · intro _
    exact ⟨by simp [detectCategorySuccess], by simp [detectCategorySuccess]⟩
  · intro hstep
    exact absurd hstep (by simp [resetToLanding])
  · intro hinv hstep
    by_cases hg : s.isRequestInProgress
    · have hno : handleOption s opt = s := by
        simp [handleOption, handleOptionTrace, hg]
      rw [hno]
      exact hinv
    · have hg2 : s.isRequestInProgress = false := by simpa using hg
      have h1 := hinv hstep
      intro _
      have ha : (handleOption s opt).answers = s.answers ++ [opt] := by
        simp [handleOption, handleOptionTrace, hg2, applyMut]
      have hs : (handleOption s opt).step = s.step + 1 := by
        simp [handleOption, handleOptionTrace, hg2, applyMut]
      have hcat : (handleOption s opt).category = s.category := by
        simp [handleOption, handleOptionTrace, hg2, applyMut]
      constructor
      · rw [hcat]
        exact h1.1
      · rw [ha, hs]
        have h2 := h1.2
        simp only [List.length_append, List.length_cons, List.length_nil]
        omega

/-- Witness for C5 (amended) at a concrete mid-flow state. -/
theorem sessionInv_preservation_amended_witness :
    sessionInv (startInteraction initialSession "Headphones" (some 3)) ∧
    sessionInv (handleOption pendingReqSession "A") := by
  have h := sessionInv_preservation_amended pendingReqSession "Headphones" (some 3) "A"
  have h0 := sessionInv_preservation_amended initialSession "Headphones" (some 3) "A"
  exact ⟨h0.1, h.2.2.2 (by decide) (by decide)⟩

/-- C5 counterexample: from the reachable step-0 state produced by a late
question response arriving after a reset, answering the rendered option
yields `step = 1` with `category` still null and one answer collected, so
the invariant is broken by the `handleOption` operation. -/
theorem handleOption_step_zero_breaks_inv :
    sessionInv
      ((responseArrives "tr" (resetToLanding initialSession) questionPayload).1) ∧
    ¬ sessionInv
        (handleOption
          ((responseArrives "tr" (resetToLanding initialSession) questionPayload).1)
          "64 GB") := by
  constructor
  · intro hstep
    exact absurd hstep (by decide)
  · intro hinv
    exact (hinv (by decide)).1 (by decide)

/-! ## Claim C6 -/

/-- C6: `resetToLanding`, from every state, yields `step = 0`, null
category, empty answers, empty displayed question, options,
recommendations and error text, a cleared free-text input, and is
idempotent. -/
theorem resetToLanding_clears_and_idempotent :
    ∀ s : Session,
      (resetToLanding s).step = 0 ∧
      (resetToLanding s).category = none ∧
      (resetToLanding s).answers = [] ∧
      (resetToLanding s).question = "" ∧
      (resetToLanding s).options = [] ∧
      (resetToLanding s).recView = .empty ∧
      (resetToLanding s).errorText = "" ∧
      (resetToLanding s).chatboxInput = "" ∧
      resetToLanding (resetToLanding s) = resetToLanding s := by
  intro s
  exact ⟨rfl, rfl, rfl, rfl, rfl, rfl, rfl, rfl, rfl⟩

/-- Witness for C6 at a concrete mid-flow state. -/
theorem resetToLanding_clears_and_idempotent_witness :
    (resetToLanding pendingReqSession).step = 0 ∧
    resetToLanding (resetToLanding pendingReqSession)
      = resetToLanding pendingReqSession := by
  have h := resetToLanding_clears_and_idempotent pendingReqSession
  exact ⟨h.1, h.2.2.2.2.2.2.2.2⟩

/-! ## Claim C7 -/

/-- C7 counterexample: after the timeout has fired for a pending request
(error screen shown), a late-arriving question response is not ignored:
the handler renders the question and changes the state. -/
theorem late_response_after_timeout_renders :
    (timeoutFires pendingReqSession).errorScreenVisible = true ∧
    (responseArrives "tr" (timeoutFires pendingReqSession) questionPayload).1.question
      = "Hangi tip?" ∧
    (responseArrives "tr" (timeoutFires pendingReqSession) questionPayload).1.options
      = ["64 GB", "128 GB"] ∧
    (responseArrives "tr" (timeoutFires pendingReqSession) questionPayload).1
      ≠ timeoutFires pendingReqSession := by
  refine ⟨rfl, rfl, rfl, by decide⟩

/-- C7 (amended): a late-arriving response after the timeout is processed
like any other response: for every state — including the post-timeout
error state — a payload carrying a question and options clears the guard
and renders that question; nothing ignores it. -/
theorem late_response_processed :
    ∀ (lang : String) (s : Session) (d : AskResponse) (q : String)
      (opts : List String),
      d.question = some q → q ≠ "" → d.options = some opts →
      (responseArrives lang s d).1.question = q ∧
      (responseArrives lang s d).1.options = opts ∧
      (responseArrives lang s d).1.isRequestInProgress = false := by
  intro lang s d q opts hq hne hopts
  have hb : (q != "") = true := bne_iff_ne.mpr hne
  have hc1 : cond1 d = true := by
    simp [cond1, truthyQuestion, hq, hopts, hb]
  have hc : classify d = .question := (classify_question_iff d).mpr hc1
  refine ⟨?_, ?_, ?_⟩ <;> simp [responseArrives, hc, renderQuestionFn, hq, hopts]

/-- Witness for C7 (amended): the late response of the counterexample
state is indeed fully processed. -/
theorem late_response_processed_witness :
    (responseArrives "tr" (timeoutFires pendingReqSession) questionPayload).1.isRequestInProgress
      = false ∧
    (responseArrives "tr" (timeoutFires pendingReqSession) questionPayload).1.question
      = "Hangi tip?" := by
  have h := late_response_processed "tr" (timeoutFires pendingReqSession)
    questionPayload "Hangi tip?" ["64 GB", "128 GB"] rfl (by decide) rfl
  exact ⟨h.2.2, h.1⟩

/-! ## Claim C10 -/

/-- C10: `renderRecommendations` called with `null`, `undefined`, a
non-array value or an empty array replaces the panel with the "no products
found" message (and returns, without throwing — the embedding is total);
for every argument it leaves `step`, `category` and `answers` unchanged. -/
theorem renderRecommendations_safe :
    ∀ (s : Session) (arg : RecsArg),
      ((arg = .jsNull ∨ arg = .jsUndefined ∨ arg = .notArray ∨ arg = .arr []) →
        (renderRecommendationsFn s arg).recView = .noProducts) ∧
      (renderRecommendationsFn s arg).step = s.step ∧
      (renderRecommendationsFn s arg).category = s.category ∧
      (renderRecommendationsFn s arg).answers = s.answers := by
  intro s arg
  refine ⟨?_, ?_, ?_, ?_⟩
  · rintro (rfl | rfl | rfl | rfl) <;>
      (simp only [renderRecommendationsFn]
       try rfl)
  all_goals
    cases arg <;>
      (simp only [renderRecommendationsFn]
       try rfl
       try (split <;> rfl))

/-- Witness for C10 at the `null` argument. -/
theorem renderRecommendations_safe_witness :
    (renderRecommendationsFn initialSession .jsNull).recView = RecView.noProducts ∧
    (renderRecommendationsFn initialSession .jsNull).step = initialSession.step := by
  have h := renderRecommendations_safe initialSession .jsNull
  exact ⟨h.1 (Or.inl rfl), h.2.1⟩

end FindFlow
